import Mathlib

/-!
Verification of the LLM invocation layer of the Smart-Terraform-Tool repository.

The development shallowly embeds `app/llm_enhancement/base.py` (the class
`LLMComponentBase` with its methods `__init__`, `call_llm`, `_get_mock_response`
and `register_mock_response`), the configuration record of
`app/llm_enhancement/config.py`, and the parts of the domain components
(`parsers/parser.py`, `validators/validator.py`, `generators/generator.py`,
`optimizers/optimizer.py`) that the verified properties mention.

Python values that flow through these functions are JSON-representable, so the
universal value type is a JSON tree.  Python's `json.dumps` and `json.loads`
are standard-library functions: `dumps` is embedded concretely (default
separators; the decimal rendering of non-integral numbers is abstracted, no
verified property depends on it), while `loads` is abstracted as an arbitrary
partial parse function, since the properties only distinguish "parses" from
"does not parse".
-/

/-- A JSON value: the universal type of the values flowing through the layer. -/
inductive Json where
  | null : Json
  | bool (b : Bool) : Json
  | num (q : Rat) : Json
  | str (s : String) : Json
  | arr (xs : List Json) : Json
  | obj (fields : List (String × Json)) : Json

/-- Escaping of a single character inside a JSON string literal. -/
def escapeChar (c : Char) : String :=
  if c = '"' then "\\\""
  else if c = '\\' then "\\\\"
  else if c = '\n' then "\\n"
  else if c = '\t' then "\\t"
  else if c = '\r' then "\\r"
  else String.singleton c

/-- Escaping of a string for inclusion in JSON output. -/
def escapeString (s : String) : String :=
  String.join (s.toList.map escapeChar)

mutual

/-- Embedding of Python's `json.dumps` with its default separators
`", "` and `": "`. -/
def dumps : Json → String
  | Json.null => "null"
  | Json.bool true => "true"
  | Json.bool false => "false"
  | Json.num q => if q.den = 1 then toString q.num else toString q.num ++ "/" ++ toString q.den
  | Json.str s => "\"" ++ escapeString s ++ "\""
  | Json.arr xs => "[" ++ dumpsArr xs ++ "]"
  | Json.obj kvs => "\x7b" ++ dumpsObj kvs ++ "\x7d"

/-- Serialization of the elements of a JSON array, comma separated. -/
def dumpsArr : List Json → String
  | [] => ""
  | [x] => dumps x
  | x :: y :: rest => dumps x ++ ", " ++ dumpsArr (y :: rest)

/-- Serialization of the members of a JSON object, comma separated. -/
def dumpsObj : List (String × Json) → String
  | [] => ""
  | [(k, v)] => "\"" ++ escapeString k ++ "\": " ++ dumps v
  | (k, v) :: p :: rest => "\"" ++ escapeString k ++ "\": " ++ dumps v ++ ", " ++ dumpsObj (p :: rest)

end

/-- Field lookup in a JSON object (`None`-returning, like `dict.get`). -/
def Json.getField : Json → String → Option Json
  | Json.obj kvs, key => kvs.lookup key
  | _, _ => none

/-- The element at an index of a JSON array. -/
def Json.arrGet : Json → Nat → Option Json
  | Json.arr xs, i => xs.get? i
  | _, _ => none

/-- The length of a JSON array. -/
def Json.arrLen : Json → Option Nat
  | Json.arr xs => some xs.length
  | _ => none

/-- The keys of a JSON object, in order. -/
def Json.objKeys : Json → Option (List String)
  | Json.obj kvs => some (kvs.map Prod.fst)
  | _ => none

/-- The configuration record of `config.py` (`LLMEnhancementConfig`): only the
attributes that `LLMComponentBase` reads on the verified paths are kept.
`use_azure_openai` is the `use_backend` feature flag of the specification. -/
structure LLMConfig where
  azure_openai_endpoint : String
  azure_openai_key : String
  use_azure_openai : Bool

/-- The state of the `client` attribute of a component after `__init__`.
`unset` records that the attribute was never assigned (the branch of
`__init__` that finds `use_azure_openai` true but a credential empty only
logs a warning and assigns nothing); `noClient` is `self.client = None`;
`connected` is a successfully constructed backend client. -/
inductive ClientState where
  | unset : ClientState
  | noClient : ClientState
  | connected : ClientState

/-- Embedding of the client-initialization part of `LLMComponentBase.__init__`
(base.py lines 42-58).  `constructionFails` abstracts whether the
`openai.AzureOpenAI(...)` constructor raises. -/
def initClient (cfg : LLMConfig) (constructionFails : Bool) : ClientState :=
  if cfg.use_azure_openai then
    if cfg.azure_openai_endpoint = "" ∨ cfg.azure_openai_key = "" then
      ClientState.unset
    else if constructionFails then
      ClientState.noClient
    else
      ClientState.connected
  else
    ClientState.noClient

/-- The fallback registry `self.mock_responses`: a Python `dict` keeping
insertion order, modelled as an association list with unique keys. -/
abbrev Registry := List (String × Json)

/-- Key lookup in the registry (`key in self.mock_responses` followed by
`self.mock_responses[key]`). -/
def lookupMock : Registry → String → Option Json
  | [], _ => none
  | (k, v) :: rest, key => if k = key then some v else lookupMock rest key

/-- Embedding of `register_mock_response` (base.py lines 147-150):
`self.mock_responses[key] = response`, i.e. Python dict assignment — the
entry is updated in place when the key exists, appended otherwise. -/
def register_mock_response (reg : Registry) (key : String) (v : Json) : Registry :=
  if reg.any (fun p => p.1 = key) then
    reg.map (fun p => if p.1 = key then (p.1, v) else p)
  else
    reg ++ [(key, v)]

/-- The `user_content` argument of `call_llm`: `Union[str, Dict]`. -/
inductive UserContent where
  | str (s : String) : UserContent
  | dict (d : List (String × Json)) : UserContent

/-- Lines 81-83 of base.py: a dictionary payload is serialized with
`json.dumps` before any branching. -/
def serializeUserContent : UserContent → String
  | UserContent.str s => s
  | UserContent.dict d => dumps (Json.obj d)

/-- The generic placeholder built by `_get_mock_response` (base.py lines
136-145) when no registered fallback applies. -/
def generic_mock (name system_prompt user_content : String) (json_response : Bool) : Json :=
  let mock := Json.obj [
    ("message", Json.str ("This is a mock response from " ++ name)),
    ("system_prompt_length", Json.num (system_prompt.length : Rat)),
    ("user_content_preview",
      Json.str (if user_content.length > 50 then user_content.take 50 ++ "..." else user_content))]
  if json_response then mock else Json.str (dumps mock)

/-- Embedding of `_get_mock_response` (base.py lines 125-145).  The guard
`if key and key in self.mock_responses` requires the key to be truthy (not
`None`, not the empty string) and present in the registry; otherwise the
generic placeholder is synthesized. -/
def get_mock_response (name : String) (reg : Registry) (key : Option String)
    (system_prompt user_content : String) (json_response : Bool) : Json :=
  let hit : Option Json :=
    match key with
    | some k => if k ≠ "" then lookupMock reg k else none
    | none => none
  match hit with
  | some v => v
  | none => generic_mock name system_prompt user_content json_response

/-- The observable outcome of the backend call
`self.client.chat.completions.create(...)` followed by the content
extraction `response.choices[0].message.content`: either a reply text was
obtained, or some exception was raised along the way (network, auth,
timeout, malformed response object). -/
inductive BackendOutcome where
  | reply (content : String) : BackendOutcome
  | failure : BackendOutcome

/-- The outcome of one `call_llm` invocation: a returned value, or an
exception escaping to the caller. -/
inductive CallOutcome where
  | ok (v : Json) : CallOutcome
  | error (msg : String) : CallOutcome

/-- The exception raised when `call_llm` reads `self.client` on a component
whose `__init__` never assigned the attribute. -/
def attributeErrorClient : String := "AttributeError: client"

/-- Embedding of `call_llm` (base.py lines 60-123), in state-passing style
over the registry so that registry preservation is expressible.
`backend` abstracts the backend interaction of one call and `parse`
abstracts `json.loads` (`some` on valid JSON, `none` on a parse failure).

Control flow of the source: a dict `user_content` is serialized first
(lines 81-83); then `if self.client is None or not llm_config.use_azure_openai`
returns the mock response (lines 85-87) — reading `self.client` raises
`AttributeError` when the attribute was never assigned; otherwise the
backend is called inside a `try` block (lines 89-119) whose
`except Exception` handler (lines 120-123) returns the mock response.  The
`raise Exception("Invalid JSON response from LLM: ...")` of the JSON-decode
handler (line 116) is itself inside that `try` block, so it is caught by
the outer handler and resolved to the mock response as well. -/
def call_llm (cfg : LLMConfig) (name : String) (client : ClientState) (reg : Registry)
    (system_prompt : String) (user_content : UserContent) (json_response : Bool)
    (mock_response_key : Option String) (backend : BackendOutcome)
    (parse : String → Option Json) : CallOutcome × Registry :=
  let uc := serializeUserContent user_content
  match client with
  | ClientState.unset => (CallOutcome.error attributeErrorClient, reg)
  | ClientState.noClient =>
    (CallOutcome.ok (get_mock_response name reg mock_response_key system_prompt uc json_response), reg)
  | ClientState.connected =>
    if cfg.use_azure_openai = false then
      (CallOutcome.ok (get_mock_response name reg mock_response_key system_prompt uc json_response), reg)
    else
      match backend with
      | BackendOutcome.failure =>
        (CallOutcome.ok (get_mock_response name reg mock_response_key system_prompt uc json_response), reg)
      | BackendOutcome.reply content =>
        if json_response then
          match parse content with
          | some j => (CallOutcome.ok j, reg)
          | none =>
            (CallOutcome.ok (get_mock_response name reg mock_response_key system_prompt uc json_response), reg)
        else
          (CallOutcome.ok (Json.str content), reg)

/-- The built-in fallback value registered under key "parse_requirements" in the parser component. -/
def parseRequirementsMock : Json :=
  Json.obj [
    ("provider", Json.str "aws"),
    ("resources", Json.arr [
      Json.obj [
        ("type", Json.str "vpc"),
        ("name", Json.str "main-vpc"),
        ("cidr", Json.str "10.0.0.0/16"),
        ("subnets", Json.arr [
          Json.obj [
            ("name", Json.str "public-1"),
            ("cidr", Json.str "10.0.1.0/24"),
            ("az", Json.str "us-west-2a")],
          Json.obj [
            ("name", Json.str "private-1"),
            ("cidr", Json.str "10.0.2.0/24"),
            ("az", Json.str "us-west-2a")]])],
      Json.obj [
        ("type", Json.str "ec2"),
        ("name", Json.str "web-server"),
        ("instance_type", Json.str "t3.medium"),
        ("count", Json.num (2 : Rat))]]),
    ("relationships", Json.arr [
      Json.obj [
        ("source", Json.str "web-server"),
        ("target", Json.str "public-1"),
        ("type", Json.str "deployed_in")]]),
    ("security", Json.obj [
      ("encryption", Json.str "required"),
      ("access_controls", Json.arr [
        Json.str "restrict_ssh_access",
        Json.str "use_security_groups"])]),
    ("constraints", Json.obj [
      ("budget", Json.str "low_cost"),
      ("performance", Json.str "moderate")]),
    ("metadata", Json.obj [
      ("purpose", Json.str "Web application hosting"),
      ("requestor", Json.str "Development team")])]

/-- The built-in fallback value registered under key "extract_context" in the parser component. -/
def extractContextMock : Json :=
  Json.obj [
    ("environment", Json.str "dev"),
    ("region", Json.str "us-west-2"),
    ("project", Json.str "web-app-modernization"),
    ("timeline", Json.str "permanent"),
    ("integration", Json.arr [
      Json.str "existing_database",
      Json.str "authentication_service"]),
    ("objectives", Json.arr [
      Json.str "improve_scalability",
      Json.str "reduce_operational_cost"]),
    ("implicit_needs", Json.arr [
      Json.str "high_availability",
      Json.str "auto_scaling"])]

/-- The fixed instruction text of parser.parse_infrastructure_requirements. -/
def parseRequirementsPrompt : String :=
  "\n        You are an expert infrastructure architect that specializes in extracting clear, structured \n        infrastructure requirements from natural language descriptions. Your task is to:\n        \n        1. Identify the cloud provider(s) mentioned or implied\n        2. Extract infrastructure resources needed (VMs, networks, storage, etc.)\n        3. Identify relationships between resources\n        4. Extract configuration parameters mentioned\n        5. Identify security and compliance requirements\n        6. Note any performance or cost constraints\n        \n        Format your response as a structured JSON object with the following keys:\n        - provider: The cloud provider (aws, azure, gcp, etc.)\n        - resources: Array of resources with their types and configurations\n        - relationships: How resources connect or depend on each other\n        - security: Security requirements and considerations\n        - constraints: Any performance or cost constraints\n        - metadata: Any additional information or context\n        "

/-- The built-in fallback value registered under key "validate_terraform" in the validator component. -/
def validateTerraformMock : Json :=
  Json.obj [
    ("errors", Json.arr [
      Json.obj [
        ("file", Json.str "main.tf"),
        ("location", Json.str "aws_instance.web"),
        ("severity", Json.str "critical"),
        ("message", Json.str "Security group not specified for EC2 instance"),
        ("recommendation", Json.str "Add security_groups attribute to aws_instance.web resource")]]),
    ("warnings", Json.arr [
      Json.obj [
        ("file", Json.str "main.tf"),
        ("location", Json.str "aws_vpc.main"),
        ("severity", Json.str "medium"),
        ("message", Json.str "Missing DNS support configuration"),
        ("recommendation", Json.str "Add enable_dns_support and enable_dns_hostnames attributes")],
      Json.obj [
        ("file", Json.str "variables.tf"),
        ("location", Json.str "variable.ami_id"),
        ("severity", Json.str "medium"),
        ("message", Json.str "AMI ID hardcoded as default"),
        ("recommendation", Json.str "Remove default value and require explicit ami_id input")]]),
    ("suggestions", Json.arr [
      Json.obj [
        ("file", Json.str "main.tf"),
        ("location", Json.str "general"),
        ("severity", Json.str "low"),
        ("message", Json.str "Missing resource tagging strategy"),
        ("recommendation", Json.str "Add consistent tags to all resources including environment and owner")],
      Json.obj [
        ("file", Json.str "outputs.tf"),
        ("location", Json.str "general"),
        ("severity", Json.str "low"),
        ("message", Json.str "Missing descriptions for outputs"),
        ("recommendation", Json.str "Add descriptive descriptions to all outputs")]])]

/-- The built-in fallback value registered under key "suggest_fixes" in the validator component. -/
def suggestFixesMock : Json :=
  Json.obj [
    ("main.tf", Json.str "\nprovider \"aws\" \x7b\n  region = var.region\n\x7d\n\n# Added DNS support as recommended\nresource \"aws_vpc\" \"main\" \x7b\n  cidr_block           = var.vpc_cidr\n  enable_dns_support   = true\n  enable_dns_hostnames = true\n  \n  # Added consistent tagging as suggested\n  tags = \x7b\n    Name        = var.vpc_name\n    Environment = var.environment\n    Owner       = \"terraform\"\n  \x7d\n\x7d\n\nresource \"aws_subnet\" \"public\" \x7b\n  vpc_id     = aws_vpc.main.id\n  cidr_block = var.public_subnet_cidr\n  availability_zone = \"$\x7bvar.region\x7da\"\n  \n  # Added consistent tagging as suggested\n  tags = \x7b\n    Name        = \"$\x7bvar.vpc_name\x7d-public\"\n    Environment = var.environment\n    Owner       = \"terraform\"\n  \x7d\n\x7d\n\nresource \"aws_subnet\" \"private\" \x7b\n  vpc_id     = aws_vpc.main.id\n  cidr_block = var.private_subnet_cidr\n  availability_zone = \"$\x7bvar.region\x7da\"\n  \n  # Added consistent tagging as suggested\n  tags = \x7b\n    Name        = \"$\x7bvar.vpc_name\x7d-private\"\n    Environment = var.environment\n    Owner       = \"terraform\"\n  \x7d\n\x7d\n\n# Added security group for EC2 instances\nresource \"aws_security_group\" \"web_sg\" \x7b\n  name        = \"$\x7bvar.vpc_name\x7d-web-sg\"\n  description = \"Security group for web servers\"\n  vpc_id      = aws_vpc.main.id\n  \n  ingress \x7b\n    from_port   = 80\n    to_port     = 80\n    protocol    = \"tcp\"\n    cidr_blocks = [\"0.0.0.0/0\"]\n    description = \"Allow HTTP\"\n  \x7d\n  \n  ingress \x7b\n    from_port   = 443\n    to_port     = 443\n    protocol    = \"tcp\"\n    cidr_blocks = [\"0.0.0.0/0\"]\n    description = \"Allow HTTPS\"\n  \x7d\n  \n  egress \x7b\n    from_port   = 0\n    to_port     = 0\n    protocol    = \"-1\"\n    cidr_blocks = [\"0.0.0.0/0\"]\n  \x7d\n  \n  # Added consistent tagging as suggested\n  tags = \x7b\n    Name        = \"$\x7bvar.vpc_name\x7d-web-sg\"\n    Environment = var.environment\n    Owner       = \"terraform\"\n  \x7d\n\x7d\n\n# Fixed critical issue - added security group to instances\nresource \"aws_instance\" \"web\" \x7b\n  count         = var.instance_count\n  ami           = var.ami_id\n  instance_type = var.instance_type\n  subnet_id     = aws_subnet.public.id\n  security_groups = [aws_security_group.web_sg.id]\n  \n  # Added consistent tagging as suggested\n  tags = \x7b\n    Name        = \"web-$\x7bcount.index + 1\x7d\"\n    Environment = var.environment\n    Owner       = \"terraform\"\n  \x7d\n\x7d\n"),
    ("variables.tf", Json.str "\nvariable \"region\" \x7b\n  description = \"AWS region to deploy resources\"\n  type        = string\n  default     = \"us-west-2\"\n\x7d\n\nvariable \"vpc_cidr\" \x7b\n  description = \"CIDR block for the VPC\"\n  type        = string\n  default     = \"10.0.0.0/16\"\n\x7d\n\nvariable \"vpc_name\" \x7b\n  description = \"Name of the VPC\"\n  type        = string\n  default     = \"main-vpc\"\n\x7d\n\nvariable \"public_subnet_cidr\" \x7b\n  description = \"CIDR block for the public subnet\"\n  type        = string\n  default     = \"10.0.1.0/24\"\n\x7d\n\nvariable \"private_subnet_cidr\" \x7b\n  description = \"CIDR block for the private subnet\"\n  type        = string\n  default     = \"10.0.2.0/24\"\n\x7d\n\nvariable \"instance_type\" \x7b\n  description = \"EC2 instance type\"\n  type        = string\n  default     = \"t3.medium\"\n\x7d\n\nvariable \"instance_count\" \x7b\n  description = \"Number of EC2 instances to deploy\"\n  type        = number\n  default     = 2\n\x7d\n\n# Fixed issue - removed hardcoded AMI ID\nvariable \"ami_id\" \x7b\n  description = \"AMI ID for EC2 instances\"\n  type        = string\n  # No default - require explicit input\n\x7d\n\nvariable \"environment\" \x7b\n  description = \"Deployment environment (dev, test, prod)\"\n  type        = string\n  default     = \"dev\"\n\x7d\n"),
    ("outputs.tf", Json.str "\n# Added improved descriptions as suggested\noutput \"vpc_id\" \x7b\n  description = \"ID of the created VPC, use for reference in other resources\"\n  value       = aws_vpc.main.id\n\x7d\n\noutput \"public_subnet_id\" \x7b\n  description = \"ID of the public subnet, use for internet-facing resources\"\n  value       = aws_subnet.public.id\n\x7d\n\noutput \"private_subnet_id\" \x7b\n  description = \"ID of the private subnet, use for internal resources\"\n  value       = aws_subnet.private.id\n\x7d\n\noutput \"instance_ids\" \x7b\n  description = \"IDs of the created EC2 instances, use for management and monitoring\"\n  value       = aws_instance.web[*].id\n\x7d\n\noutput \"security_group_id\" \x7b\n  description = \"ID of the web security group, use for additional security rules\"\n  value       = aws_security_group.web_sg.id\n\x7d\n")]

/-- The built-in fallback value registered under key "check_best_practices" in the validator component. -/
def checkBestPracticesMock : Json :=
  Json.obj [
    ("score", Json.num (68 : Rat)),
    ("structure", Json.obj [
      ("assessment", Json.str "Moderate"),
      ("strengths", Json.arr [
        Json.str "Clear resource organization",
        Json.str "Logical file separation"]),
      ("weaknesses", Json.arr [
        Json.str "Limited use of modules",
        Json.str "No locals for repeated values"])]),
    ("naming", Json.obj [
      ("assessment", Json.str "Good"),
      ("strengths", Json.arr [
        Json.str "Consistent resource naming",
        Json.str "Descriptive variable names"]),
      ("weaknesses", Json.arr [
        Json.str "No naming convention for tags"])]),
    ("variables", Json.obj [
      ("assessment", Json.str "Fair"),
      ("strengths", Json.arr [
        Json.str "Good use of variable typing",
        Json.str "Appropriate defaults"]),
      ("weaknesses", Json.arr [
        Json.str "Missing validation blocks",
        Json.str "Some hardcoded values"])]),
    ("security", Json.obj [
      ("assessment", Json.str "Poor"),
      ("strengths", Json.arr [
        Json.str "No overly permissive IAM policies"]),
      ("weaknesses", Json.arr [
        Json.str "Missing security groups",
        Json.str "Open ingress rules",
        Json.str "No encryption configured"])]),
    ("recommendations", Json.arr [
      Json.str "Implement a module structure for reusable components",
      Json.str "Add variable validation blocks",
      Json.str "Implement a consistent tagging strategy",
      Json.str "Improve security group configuration",
      Json.str "Add encryption for sensitive data",
      Json.str "Use data sources for AMI lookup instead of hardcoded values"])]

/-- The built-in fallback value registered under key "check_security" in the validator component. -/
def checkSecurityMock : Json :=
  Json.obj [
    ("findings", Json.arr [
      Json.obj [
        ("severity", Json.str "high"),
        ("description", Json.str "Missing security group for EC2 instances"),
        ("impact", Json.str "Instances could be accessible from any source"),
        ("recommendation", Json.str "Add security group with restricted ingress")],
      Json.obj [
        ("severity", Json.str "medium"),
        ("description", Json.str "Public subnet with instances directly exposed"),
        ("impact", Json.str "Increased attack surface for instances"),
        ("recommendation", Json.str "Use private subnets with NAT gateway or bastion host")],
      Json.obj [
        ("severity", Json.str "medium"),
        ("description", Json.str "No encryption in transit configuration"),
        ("impact", Json.str "Data transmitted to/from instances could be intercepted"),
        ("recommendation", Json.str "Configure TLS and ensure HTTPS usage")]]),
    ("compliance", Json.obj [
      ("hipaa", Json.str "non_compliant"),
      ("pci", Json.str "non_compliant"),
      ("iso27001", Json.str "partially_compliant"),
      ("issues", Json.arr [
        Json.str "Missing encryption",
        Json.str "Insufficient access controls",
        Json.str "Inadequate logging"])]),
    ("risk_score", Json.str "high"),
    ("recommendations", Json.arr [
      Json.str "Implement security groups with principle of least privilege",
      Json.str "Configure encryption in transit and at rest",
      Json.str "Implement a bastion host for secure access",
      Json.str "Enable detailed CloudTrail logging",
      Json.str "Add AWS Config rules for continuous compliance monitoring"])]

/-- The fixed instruction text of validator.suggest_fixes. -/
def suggestFixesPrompt : String :=
  "\n        As a Terraform expert, fix the issues identified in the validation results. \n        Modify the provided template files to:\n        \n        1. Fix all errors\n        2. Address security concerns\n        3. Implement best practices\n        4. Improve code quality\n        \n        Return a JSON object with filenames as keys and the updated file content as values.\n        Include all original files even if they weren\x27t modified.\n        Add comments before each fix explaining what was changed and why.\n        "

/-- The built-in fallback value registered under key "generate_template" in the generator component. -/
def generateTemplateMock : Json :=
  Json.obj [
    ("main.tf", Json.str "\nprovider \"aws\" \x7b\n  region = var.region\n\x7d\n\nresource \"aws_vpc\" \"main\" \x7b\n  cidr_block = var.vpc_cidr\n  \n  tags = \x7b\n    Name = var.vpc_name\n  \x7d\n\x7d\n\nresource \"aws_subnet\" \"public\" \x7b\n  vpc_id     = aws_vpc.main.id\n  cidr_block = var.public_subnet_cidr\n  availability_zone = \"$\x7bvar.region\x7da\"\n  \n  tags = \x7b\n    Name = \"$\x7bvar.vpc_name\x7d-public\"\n  \x7d\n\x7d\n\nresource \"aws_subnet\" \"private\" \x7b\n  vpc_id     = aws_vpc.main.id\n  cidr_block = var.private_subnet_cidr\n  availability_zone = \"$\x7bvar.region\x7da\"\n  \n  tags = \x7b\n    Name = \"$\x7bvar.vpc_name\x7d-private\"\n  \x7d\n\x7d\n\nresource \"aws_instance\" \"web\" \x7b\n  count         = var.instance_count\n  ami           = var.ami_id\n  instance_type = var.instance_type\n  subnet_id     = aws_subnet.public.id\n  \n  tags = \x7b\n    Name = \"web-$\x7bcount.index + 1\x7d\"\n  \x7d\n\x7d\n"),
    ("variables.tf", Json.str "\nvariable \"region\" \x7b\n  description = \"AWS region to deploy resources\"\n  type        = string\n  default     = \"us-west-2\"\n\x7d\n\nvariable \"vpc_cidr\" \x7b\n  description = \"CIDR block for the VPC\"\n  type        = string\n  default     = \"10.0.0.0/16\"\n\x7d\n\nvariable \"vpc_name\" \x7b\n  description = \"Name of the VPC\"\n  type        = string\n  default     = \"main-vpc\"\n\x7d\n\nvariable \"public_subnet_cidr\" \x7b\n  description = \"CIDR block for the public subnet\"\n  type        = string\n  default     = \"10.0.1.0/24\"\n\x7d\n\nvariable \"private_subnet_cidr\" \x7b\n  description = \"CIDR block for the private subnet\"\n  type        = string\n  default     = \"10.0.2.0/24\"\n\x7d\n\nvariable \"instance_type\" \x7b\n  description = \"EC2 instance type\"\n  type        = string\n  default     = \"t3.medium\"\n\x7d\n\nvariable \"instance_count\" \x7b\n  description = \"Number of EC2 instances to deploy\"\n  type        = number\n  default     = 2\n\x7d\n\nvariable \"ami_id\" \x7b\n  description = \"AMI ID for EC2 instances\"\n  type        = string\n  default     = \"ami-0c55b159cbfafe1f0\"\n\x7d\n"),
    ("outputs.tf", Json.str "\noutput \"vpc_id\" \x7b\n  description = \"ID of the created VPC\"\n  value       = aws_vpc.main.id\n\x7d\n\noutput \"public_subnet_id\" \x7b\n  description = \"ID of the public subnet\"\n  value       = aws_subnet.public.id\n\x7d\n\noutput \"private_subnet_id\" \x7b\n  description = \"ID of the private subnet\"\n  value       = aws_subnet.private.id\n\x7d\n\noutput \"instance_ids\" \x7b\n  description = \"IDs of the created EC2 instances\"\n  value       = aws_instance.web[*].id\n\x7d\n")]

/-- The built-in fallback value registered under key "analyze_template" in the generator component. -/
def analyzeTemplateMock : Json :=
  Json.obj [
    ("resources", Json.arr [
      Json.obj [
        ("type", Json.str "aws_vpc"),
        ("name", Json.str "main"),
        ("count", Json.num (1 : Rat))],
      Json.obj [
        ("type", Json.str "aws_subnet"),
        ("name", Json.str "public"),
        ("count", Json.num (1 : Rat))],
      Json.obj [
        ("type", Json.str "aws_subnet"),
        ("name", Json.str "private"),
        ("count", Json.num (1 : Rat))],
      Json.obj [
        ("type", Json.str "aws_instance"),
        ("name", Json.str "web"),
        ("count", Json.str "variable")]]),
    ("variables", Json.arr [
      Json.obj [
        ("name", Json.str "region"),
        ("type", Json.str "string"),
        ("default", Json.str "us-west-2"),
        ("description", Json.str "AWS region to deploy resources")],
      Json.obj [
        ("name", Json.str "vpc_cidr"),
        ("type", Json.str "string"),
        ("default", Json.str "10.0.0.0/16"),
        ("description", Json.str "CIDR block for the VPC")]]),
    ("outputs", Json.arr [
      Json.obj [
        ("name", Json.str "vpc_id"),
        ("description", Json.str "ID of the created VPC")],
      Json.obj [
        ("name", Json.str "public_subnet_id"),
        ("description", Json.str "ID of the public subnet")]]),
    ("complexity", Json.obj [
      ("level", Json.str "medium"),
      ("explanation", Json.str "Basic infrastructure with multiple related resources")]),
    ("cost", Json.obj [
      ("estimated_monthly", Json.str "$50-100"),
      ("main_cost_factors", Json.arr [
        Json.str "EC2 instances",
        Json.str "data transfer"])]),
    ("security", Json.obj [
      ("concerns", Json.arr [
        Json.str "Public subnet accessibility",
        Json.str "No security groups defined"]),
      ("recommendations", Json.arr [
        Json.str "Add security groups",
        Json.str "Implement network ACLs"])])]

/-- The built-in fallback value registered under key "generate_documentation" in the generator component. -/
def generateDocumentationMock : Json :=
  Json.str "\n# AWS VPC with EC2 Instances\n\n## Overview\n\nThis Terraform template deploys a basic AWS VPC architecture with public and private subnets, along with EC2 instances for a web application.\n\n## Prerequisites\n\n- AWS account\n- Terraform v1.0+\n- AWS CLI configured\n\n## Usage\n\n\x60\x60\x60bash\nterraform init\nterraform plan -out=tfplan\nterraform apply tfplan\n\x60\x60\x60\n\n## Variables\n\n| Name | Description | Type | Default |\n|------|-------------|------|---------|\n| region | AWS region to deploy resources | string | us-west-2 |\n| vpc_cidr | CIDR block for the VPC | string | 10.0.0.0/16 |\n| vpc_name | Name of the VPC | string | main-vpc |\n| ... | ... | ... | ... |\n\n## Architecture\n\nThe architecture consists of:\n- A VPC with CIDR 10.0.0.0/16\n- Public subnet in the first availability zone\n- Private subnet in the first availability zone\n- EC2 instances in the public subnet\n\n## Maintenance\n\nRemember to destroy resources when no longer needed:\n\n\x60\x60\x60bash\nterraform destroy\n\x60\x60\x60\n"

/-- The built-in fallback value registered under key "customize_template" in the generator component. -/
def customizeTemplateMock : Json :=
  Json.obj [
    ("main.tf", Json.str "\nprovider \"aws\" \x7b\n  region = var.region\n\x7d\n\n# Modified VPC with DNS support as requested\nresource \"aws_vpc\" \"main\" \x7b\n  cidr_block           = var.vpc_cidr\n  enable_dns_support   = true\n  enable_dns_hostnames = true\n  \n  tags = \x7b\n    Name        = var.vpc_name\n    Environment = var.environment\n  \x7d\n\x7d\n\n# Added Internet Gateway as requested\nresource \"aws_internet_gateway\" \"igw\" \x7b\n  vpc_id = aws_vpc.main.id\n  \n  tags = \x7b\n    Name = \"$\x7bvar.vpc_name\x7d-igw\"\n  \x7d\n\x7d\n\nresource \"aws_subnet\" \"public\" \x7b\n  vpc_id                  = aws_vpc.main.id\n  cidr_block              = var.public_subnet_cidr\n  availability_zone       = \"$\x7bvar.region\x7da\"\n  map_public_ip_on_launch = true\n  \n  tags = \x7b\n    Name = \"$\x7bvar.vpc_name\x7d-public\"\n  \x7d\n\x7d\n\nresource \"aws_subnet\" \"private\" \x7b\n  vpc_id     = aws_vpc.main.id\n  cidr_block = var.private_subnet_cidr\n  availability_zone = \"$\x7bvar.region\x7da\"\n  \n  tags = \x7b\n    Name = \"$\x7bvar.vpc_name\x7d-private\"\n  \x7d\n\x7d\n\n# Added security group as requested\nresource \"aws_security_group\" \"web_sg\" \x7b\n  name        = \"$\x7bvar.vpc_name\x7d-web-sg\"\n  description = \"Security group for web servers\"\n  vpc_id      = aws_vpc.main.id\n  \n  ingress \x7b\n    from_port   = 80\n    to_port     = 80\n    protocol    = \"tcp\"\n    cidr_blocks = [\"0.0.0.0/0\"]\n    description = \"Allow HTTP\"\n  \x7d\n  \n  ingress \x7b\n    from_port   = 443\n    to_port     = 443\n    protocol    = \"tcp\"\n    cidr_blocks = [\"0.0.0.0/0\"]\n    description = \"Allow HTTPS\"\n  \x7d\n  \n  egress \x7b\n    from_port   = 0\n    to_port     = 0\n    protocol    = \"-1\"\n    cidr_blocks = [\"0.0.0.0/0\"]\n  \x7d\n\x7d\n\nresource \"aws_instance\" \"web\" \x7b\n  count         = var.instance_count\n  ami           = var.ami_id\n  instance_type = var.instance_type\n  subnet_id     = aws_subnet.public.id\n  security_groups = [aws_security_group.web_sg.id]\n  \n  tags = \x7b\n    Name = \"web-$\x7bcount.index + 1\x7d\"\n    Environment = var.environment\n  \x7d\n\x7d\n"),
    ("variables.tf", Json.str "\nvariable \"region\" \x7b\n  description = \"AWS region to deploy resources\"\n  type        = string\n  default     = \"us-west-2\"\n\x7d\n\nvariable \"vpc_cidr\" \x7b\n  description = \"CIDR block for the VPC\"\n  type        = string\n  default     = \"10.0.0.0/16\"\n\x7d\n\nvariable \"vpc_name\" \x7b\n  description = \"Name of the VPC\"\n  type        = string\n  default     = \"main-vpc\"\n\x7d\n\nvariable \"public_subnet_cidr\" \x7b\n  description = \"CIDR block for the public subnet\"\n  type        = string\n  default     = \"10.0.1.0/24\"\n\x7d\n\nvariable \"private_subnet_cidr\" \x7b\n  description = \"CIDR block for the private subnet\"\n  type        = string\n  default     = \"10.0.2.0/24\"\n\x7d\n\nvariable \"instance_type\" \x7b\n  description = \"EC2 instance type\"\n  type        = string\n  default     = \"t3.medium\"\n\x7d\n\nvariable \"instance_count\" \x7b\n  description = \"Number of EC2 instances to deploy\"\n  type        = number\n  default     = 2\n\x7d\n\nvariable \"ami_id\" \x7b\n  description = \"AMI ID for EC2 instances\"\n  type        = string\n  default     = \"ami-0c55b159cbfafe1f0\"\n\x7d\n\n# Added new variable as requested\nvariable \"environment\" \x7b\n  description = \"Deployment environment\"\n  type        = string\n  default     = \"dev\"\n\x7d\n"),
    ("outputs.tf", Json.str "\noutput \"vpc_id\" \x7b\n  description = \"ID of the created VPC\"\n  value       = aws_vpc.main.id\n\x7d\n\noutput \"public_subnet_id\" \x7b\n  description = \"ID of the public subnet\"\n  value       = aws_subnet.public.id\n\x7d\n\noutput \"private_subnet_id\" \x7b\n  description = \"ID of the private subnet\"\n  value       = aws_subnet.private.id\n\x7d\n\noutput \"instance_ids\" \x7b\n  description = \"IDs of the created EC2 instances\"\n  value       = aws_instance.web[*].id\n\x7d\n\n# Added new output as requested\noutput \"security_group_id\" \x7b\n  description = \"ID of the web security group\"\n  value       = aws_security_group.web_sg.id\n\x7d\n")]

/-- The fixed instruction text of generator.customize_template. -/
def customizeTemplatePrompt : String :=
  "\n        As a Terraform customization expert, modify the provided template files according to the\n        customization requirements. Ensure that:\n        \n        1. All requested changes are implemented\n        2. The modified code maintains best practices\n        3. Code remains readable and well-documented\n        4. Changes are highlighted in comments\n        \n        Return a JSON object with filenames as keys and the updated file content as values.\n        Include all original files even if they weren\x27t modified.\n        "

/-- A `Dict[str, str]` of Terraform files, as passed to the domain operations. -/
abbrev TemplateFiles := List (String × String)

/-- A template-files mapping as a JSON object (the form it takes inside a
dictionary payload). -/
def tfJson (template_files : TemplateFiles) : Json :=
  Json.obj (template_files.map (fun p => (p.1, Json.str p.2)))

/-- The fallback registry of `NaturalLanguageParser` right after construction:
`__init__` starts from an empty dict and `_register_default_mocks`
(parser.py lines 103-151) registers the two built-in samples in order. -/
def parserRegistry : Registry :=
  register_mock_response
    (register_mock_response [] "parse_requirements" parseRequirementsMock)
    "extract_context" extractContextMock

/-- The fallback registry of `IntelligentValidator` right after construction
(`_register_default_mocks`, validator.py lines 175-480). -/
def validatorRegistry : Registry :=
  register_mock_response
    (register_mock_response
      (register_mock_response
        (register_mock_response [] "validate_terraform" validateTerraformMock)
        "suggest_fixes" suggestFixesMock)
      "check_best_practices" checkBestPracticesMock)
    "check_security" checkSecurityMock

/-- The fallback registry of `TemplateGenerator` right after construction
(`_register_default_mocks`, generator.py lines 171-546). -/
def generatorRegistry : Registry :=
  register_mock_response
    (register_mock_response
      (register_mock_response
        (register_mock_response [] "generate_template" generateTemplateMock)
        "analyze_template" analyzeTemplateMock)
      "generate_documentation" generateDocumentationMock)
    "customize_template" customizeTemplateMock

/-- Embedding of `NaturalLanguageParser.parse_infrastructure_requirements`
(parser.py lines 23-58): fixed instruction text, the input text as a string
payload, JSON expected, fallback key `"parse_requirements"`.  The component
name is `"parser"`; `constructionFails`, `backend` and `parse` abstract the
environment exactly as in `call_llm`. -/
def parse_infrastructure_requirements (cfg : LLMConfig) (constructionFails : Bool)
    (reg : Registry) (text : String) (backend : BackendOutcome)
    (parse : String → Option Json) : CallOutcome × Registry :=
  call_llm cfg "parser" (initClient cfg constructionFails) reg
    parseRequirementsPrompt (UserContent.str text) true
    (some "parse_requirements") backend parse

/-- Embedding of `IntelligentValidator.suggest_fixes` (validator.py lines
64-101): the payload is the dict pairing `template_files` with
`validation_results`, JSON expected, fallback key `"suggest_fixes"`. -/
def suggest_fixes (cfg : LLMConfig) (constructionFails : Bool) (reg : Registry)
    (template_files : TemplateFiles) (validation_results : Json)
    (backend : BackendOutcome) (parse : String → Option Json) : CallOutcome × Registry :=
  call_llm cfg "validator" (initClient cfg constructionFails) reg
    suggestFixesPrompt
    (UserContent.dict [("template_files", tfJson template_files),
                       ("validation_results", validation_results)])
    true (some "suggest_fixes") backend parse

/-- Embedding of `TemplateGenerator.customize_template` (generator.py lines
133-169): the payload is the dict pairing `template_files` with
`customizations`, JSON expected, fallback key `"customize_template"`. -/
def customize_template (cfg : LLMConfig) (constructionFails : Bool) (reg : Registry)
    (template_files : TemplateFiles) (customizations : Json)
    (backend : BackendOutcome) (parse : String → Option Json) : CallOutcome × Registry :=
  call_llm cfg "generator" (initClient cfg constructionFails) reg
    customizeTemplatePrompt
    (UserContent.dict [("template_files", tfJson template_files),
                       ("customizations", customizations)])
    true (some "customize_template") backend parse

/-- Python truthiness of the `Optional[float]` optimizer argument
`budget_constraint`: `None` and `0.0` are falsy, every other float truthy. -/
def pyTruthyOptNum : Option Rat → Bool
  | none => false
  | some q => q != 0

/-- Python truthiness of an `Optional[Dict]` optimizer argument
(`performance_targets`, `utilization_data`): `None` and the empty dict are
falsy, every non-empty dict truthy. -/
def pyTruthyOptDict : Option (List (String × Json)) → Bool
  | none => false
  | some d => !d.isEmpty

/-- The JSON value transmitted for an `Optional[float]`. -/
def optNumJson : Option Rat → Json
  | none => Json.null
  | some q => Json.num q

/-- The JSON value transmitted for an `Optional[Dict]`. -/
def optDictJson : Option (List (String × Json)) → Json
  | none => Json.null
  | some d => Json.obj d

/-- The payload object of `ResourceOptimizer.optimize_cost` (optimizer.py
lines 53-56): `json.dumps({"template_files": ..., "budget_constraint": ...})
if budget_constraint else json.dumps({"template_files": ...})` — the merge is
guarded by the truthiness of `budget_constraint`, and `optimize_cost_user_content`
below is the serialized form the source computes in one expression. -/
def optimize_cost_payload (template_files : TemplateFiles)
    (budget_constraint : Option Rat) : Json :=
  if pyTruthyOptNum budget_constraint then
    Json.obj [("template_files", tfJson template_files),
              ("budget_constraint", optNumJson budget_constraint)]
  else
    Json.obj [("template_files", tfJson template_files)]

/-- The `user_content` string built by `optimize_cost`. -/
def optimize_cost_user_content (template_files : TemplateFiles)
    (budget_constraint : Option Rat) : String :=
  dumps (optimize_cost_payload template_files budget_constraint)

/-- The payload object of `ResourceOptimizer.optimize_performance`
(optimizer.py lines 97-100), guarded by the truthiness of
`performance_targets`. -/
def optimize_performance_payload (template_files : TemplateFiles)
    (performance_targets : Option (List (String × Json))) : Json :=
  if pyTruthyOptDict performance_targets then
    Json.obj [("template_files", tfJson template_files),
              ("performance_targets", optDictJson performance_targets)]
  else
    Json.obj [("template_files", tfJson template_files)]

/-- The payload object of `ResourceOptimizer.right_size_resources`
(optimizer.py lines 184-187), guarded by the truthiness of
`utilization_data`. -/
def right_size_resources_payload (template_files : TemplateFiles)
    (utilization_data : Option (List (String × Json))) : Json :=
  if pyTruthyOptDict utilization_data then
    Json.obj [("template_files", tfJson template_files),
              ("utilization_data", optDictJson utilization_data)]
  else
    Json.obj [("template_files", tfJson template_files)]

/-- The message text of a returned value, used to distinguish concrete call
outcomes. -/
def CallOutcome.messageText : CallOutcome → Option String
  | CallOutcome.ok v =>
    match v.getField "message" with
    | some (Json.str s) => some s
    | _ => none
  | CallOutcome.error _ => none

/-- A configuration with the backend feature flag off (`use_backend=false`):
every component constructed under it has `client = None`. -/
def cfgBackendOff : LLMConfig := ⟨"", "", false⟩

/-- Registering under a key that is not in the registry appends the entry, so
looking up that key afterwards finds the new value. -/
theorem lookupMock_append_self (reg : Registry) (k : String) (v : Json)
    (h : reg.any (fun p => p.1 = k) = false) :
    lookupMock (reg ++ [(k, v)]) k = some v := by
  induction reg with
  | nil => simp [lookupMock]
  | cons a rest ih =>
    simp only [List.any_cons, Bool.or_eq_false_iff] at h
    simp only [List.cons_append, lookupMock]
    rw [if_neg (by simpa using h.1)]
    exact ih h.2

/-- Updating an existing key in place: looking the key up afterwards finds the
new value. -/
theorem lookupMock_map_update_self (reg : Registry) (k : String) (v : Json)
    (h : reg.any (fun p => p.1 = k) = true) :
    lookupMock (reg.map (fun p => if p.1 = k then (p.1, v) else p)) k = some v := by
  induction reg with
  | nil => simp at h
  | cons a rest ih =>
    obtain ⟨k1, v1⟩ := a
    simp only [List.any_cons, Bool.or_eq_true, decide_eq_true_eq] at h
    by_cases ha : k1 = k
    · simp only [List.map_cons]
      rw [if_pos ha]
      simp only [lookupMock]
      rw [if_pos ha]
    · simp only [List.map_cons]
      rw [if_neg ha]
      simp only [lookupMock]
      rw [if_neg ha]
      exact ih (h.resolve_left ha)

/-- After `register_mock_response reg k v`, the key `k` maps to `v`: a value
registered at runtime for an existing key overrides the previous entry. -/
theorem lookupMock_register_self (reg : Registry) (k : String) (v : Json) :
    lookupMock (register_mock_response reg k v) k = some v := by
  unfold register_mock_response
  by_cases h : reg.any (fun p => p.1 = k) = true
  · rw [if_pos h]
    exact lookupMock_map_update_self reg k v h
  · rw [if_neg h]
    exact lookupMock_append_self reg k v (Bool.eq_false_iff.mpr h)

/-- Appending an entry for `k` does not change the lookup of any other key. -/
theorem lookupMock_append_other (reg : Registry) (k : String) (v : Json)
    (k' : String) (h : k' ≠ k) :
    lookupMock (reg ++ [(k, v)]) k' = lookupMock reg k' := by
  induction reg with
  | nil =>
    simp only [List.nil_append, lookupMock]
    rw [if_neg (fun hh => h hh.symm)]
  | cons a rest ih =>
    simp only [List.cons_append, lookupMock]
    by_cases ha : a.1 = k'
    · rw [if_pos ha, if_pos ha]
    · rw [if_neg ha, if_neg ha]
      exact ih

/-- Updating the entry at `k` in place does not change the lookup of any other
key. -/
theorem lookupMock_map_update_other (reg : Registry) (k : String) (v : Json)
    (k' : String) (h : k' ≠ k) :
    lookupMock (reg.map (fun p => if p.1 = k then (p.1, v) else p)) k'
      = lookupMock reg k' := by
  induction reg with
  | nil => simp [lookupMock]
  | cons a rest ih =>
    obtain ⟨k1, v1⟩ := a
    simp only [List.map_cons]
    by_cases ha : k1 = k
    · rw [if_pos ha]
      simp only [lookupMock]
      have hne : ¬ k1 = k' := fun hh => h (hh.symm.trans ha)
      rw [if_neg hne, if_neg hne]
      exact ih
    · rw [if_neg ha]
      simp only [lookupMock]
      by_cases hb : k1 = k'
      · rw [if_pos hb, if_pos hb]
      · rw [if_neg hb, if_neg hb]
        exact ih

/-- Registration changes the registry at most at the given key. -/
theorem lookupMock_register_other (reg : Registry) (k : String) (v : Json)
    (k' : String) (h : k' ≠ k) :
    lookupMock (register_mock_response reg k v) k' = lookupMock reg k' := by
  unfold register_mock_response
  by_cases hh : reg.any (fun p => p.1 = k) = true
  · rw [if_pos hh]
    exact lookupMock_map_update_other reg k v k' h
  · rw [if_neg hh]
    exact lookupMock_append_other reg k v k' h

/-- A component constructed while the backend flag is off has `client = None`
(the `else` branch of `__init__`). -/
theorem initClient_backend_off (cfg : LLMConfig) (b : Bool)
    (h : cfg.use_azure_openai = false) :
    initClient cfg b = ClientState.noClient := by
  simp [initClient, h]

/-- C4: for every operation, whenever `use_backend` is false and a fallback
value is registered under that operation's fallback key (built in or
registered later via `register_mock_response`), the operation's result
equals exactly that registered value; a value registered at runtime for an
existing key overrides the built-in default. -/
theorem c4_registered_fallback_wins :
    (∀ (cfg : LLMConfig) (name : String) (b : Bool) (reg : Registry) (k : String) (v : Json)
       (sp : String) (uc : UserContent) (jr : Bool) (bo : BackendOutcome)
       (parse : String → Option Json),
       cfg.use_azure_openai = false → k ≠ "" → lookupMock reg k = some v →
       (call_llm cfg name (initClient cfg b) reg sp uc jr (some k) bo parse).1 = CallOutcome.ok v)
    ∧ (∀ (reg : Registry) (k : String) (v : Json),
        lookupMock (register_mock_response reg k v) k = some v) := by
  constructor
  · intro cfg name b reg k v sp uc jr bo parse hcfg hk hl
    rw [initClient_backend_off cfg b hcfg]
    simp [call_llm, get_mock_response, hk, hl]
  · exact lookupMock_register_self

/-- Witness for C4: the specification's scenario — register the key
`"validate_terraform"` to the custom payload
`{"errors": [], "warnings": [], "suggestions": []}` over the validator's
built-in registry, call with the backend disabled, and get back exactly
that payload. -/
theorem c4_registered_fallback_wins_witness :
    cfgBackendOff.use_azure_openai = false
    ∧ (call_llm cfgBackendOff "validator" (initClient cfgBackendOff false)
        (register_mock_response validatorRegistry "validate_terraform"
          (Json.obj [("errors", Json.arr []), ("warnings", Json.arr []),
                     ("suggestions", Json.arr [])]))
        "sys" (UserContent.str "x") true (some "validate_terraform")
        BackendOutcome.failure (fun _ => none)).1
      = CallOutcome.ok (Json.obj [("errors", Json.arr []), ("warnings", Json.arr []),
                                  ("suggestions", Json.arr [])]) :=
  ⟨rfl,
    c4_registered_fallback_wins.1 cfgBackendOff "validator" false _ "validate_terraform" _
      "sys" (UserContent.str "x") true BackendOutcome.failure (fun _ => none)
      rfl (by decide) (lookupMock_register_self _ _ _)⟩

/-- C9: `register_mock_response` changes the fallback registry only at the
given key, and `call_llm` never mutates the registry on any path. -/
theorem c9_registry_frame :
    (∀ (reg : Registry) (k : String) (v : Json) (k' : String), k' ≠ k →
        lookupMock (register_mock_response reg k v) k' = lookupMock reg k')
    ∧ (∀ (cfg : LLMConfig) (name : String) (client : ClientState) (reg : Registry)
         (sp : String) (uc : UserContent) (jr : Bool) (mk : Option String)
         (bo : BackendOutcome) (parse : String → Option Json),
        (call_llm cfg name client reg sp uc jr mk bo parse).2 = reg) := by
  constructor
  · exact lookupMock_register_other
  · intro cfg name client reg sp uc jr mk bo parse
    cases client with
    | unset => rfl
    | noClient => rfl
    | connected =>
      by_cases h : cfg.use_azure_openai = false
      · simp [call_llm, h]
      · cases bo with
        | failure => simp [call_llm, h]
        | reply content =>
          cases jr with
          | false => simp [call_llm, h]
          | true =>
            cases hp : parse content with
            | none => simp [call_llm, h, hp]
            | some j => simp [call_llm, h, hp]

/-- Witness for C9 at concrete inputs: registering `"a"` leaves the lookup of
`"b"` unchanged, and a concrete fallback-path call returns the registry it
was given. -/
theorem c9_registry_frame_witness :
    lookupMock (register_mock_response [] "a" Json.null) "b" = lookupMock [] "b"
    ∧ (call_llm cfgBackendOff "validator" ClientState.noClient [] "s" (UserContent.str "u")
        true none BackendOutcome.failure (fun _ => none)).2 = [] :=
  ⟨c9_registry_frame.1 [] "a" Json.null "b" (by decide),
    c9_registry_frame.2 cfgBackendOff "validator" ClientState.noClient [] "s"
      (UserContent.str "u") true none BackendOutcome.failure (fun _ => none)⟩

/-- C5: with `use_backend` false and no registered fallback applicable, the
call returns the synthesized placeholder: its payload preview is the first
50 characters plus an ellipsis when the serialized payload is longer than
50 characters and the payload unmodified otherwise, it echoes the
instruction length, and it is a structured object when `json_response` is
true and the serialized text of that object otherwise. -/
theorem c5_generic_placeholder_shape :
    ∀ (cfg : LLMConfig) (name : String) (b : Bool) (reg : Registry) (sp uc : String)
      (jr : Bool) (mk : Option String) (bo : BackendOutcome) (parse : String → Option Json),
      cfg.use_azure_openai = false →
      (∀ k, mk = some k → k = "" ∨ lookupMock reg k = none) →
      (call_llm cfg name (initClient cfg b) reg sp (UserContent.str uc) jr mk bo parse).1
        = CallOutcome.ok (generic_mock name sp uc jr)
      ∧ (uc.length > 50 →
          (generic_mock name sp uc true).getField "user_content_preview"
            = some (Json.str (uc.take 50 ++ "...")))
      ∧ (uc.length ≤ 50 →
          (generic_mock name sp uc true).getField "user_content_preview" = some (Json.str uc))
      ∧ (generic_mock name sp uc true).getField "system_prompt_length"
          = some (Json.num (sp.length : Rat))
      ∧ (generic_mock name sp uc true).objKeys
          = some ["message", "system_prompt_length", "user_content_preview"]
      ∧ generic_mock name sp uc false = Json.str (dumps (generic_mock name sp uc true)) := by
  intro cfg name b reg sp uc jr mk bo parse hcfg hmiss
  refine ⟨?_, ?_, ?_, rfl, rfl, rfl⟩
  · rw [initClient_backend_off cfg b hcfg]
    cases mk with
    | none => simp [call_llm, get_mock_response, serializeUserContent]
    | some k =>
      rcases hmiss k rfl with hk | hk
      · subst hk
        simp [call_llm, get_mock_response, serializeUserContent]
      · by_cases hk0 : k = ""
        · subst hk0
          simp [call_llm, get_mock_response, serializeUserContent]
        · simp [call_llm, get_mock_response, serializeUserContent, hk0, hk]
  · intro h
    simp only [generic_mock, Json.getField, if_pos h]
    rfl
  · intro h
    simp only [generic_mock, Json.getField, if_neg (Nat.not_lt.mpr h)]
    rfl

/-- Witness for C5: a fallback-path call on an empty registry with a 60
character payload returns the placeholder, whose preview is the first 50
characters plus an ellipsis. -/
theorem c5_generic_placeholder_shape_witness :
    (call_llm cfgBackendOff "generator" (initClient cfgBackendOff false) [] "abc"
        (UserContent.str "012345678901234567890123456789012345678901234567890123456789")
        true none BackendOutcome.failure (fun _ => none)).1
      = CallOutcome.ok
          (generic_mock "generator" "abc"
            "012345678901234567890123456789012345678901234567890123456789" true)
    ∧ (generic_mock "generator" "abc"
          "012345678901234567890123456789012345678901234567890123456789" true).getField
          "user_content_preview"
        = some (Json.str
            (("012345678901234567890123456789012345678901234567890123456789").take 50 ++ "...")) :=
  ⟨(c5_generic_placeholder_shape cfgBackendOff "generator" false [] "abc"
      "012345678901234567890123456789012345678901234567890123456789" true none
      BackendOutcome.failure (fun _ => none) rfl (fun k h => Option.noConfusion h)).1,
    (c5_generic_placeholder_shape cfgBackendOff "generator" false [] "abc"
      "012345678901234567890123456789012345678901234567890123456789" true none
      BackendOutcome.failure (fun _ => none) rfl (fun k h => Option.noConfusion h)).2.1
      (by decide)⟩

/-- C6: a dictionary payload is serialized to a string before `call_llm`
branches, so a call with a dict payload behaves exactly like the call with
the serialized string, and on the fallback path the generic placeholder is
computed from the serialized string form of the dictionary. -/
theorem c6_dict_serialized_before_branching :
    ∀ (cfg : LLMConfig) (name : String) (client : ClientState) (reg : Registry) (sp : String)
      (d : List (String × Json)) (jr : Bool) (mk : Option String) (bo : BackendOutcome)
      (parse : String → Option Json) (b : Bool),
      call_llm cfg name client reg sp (UserContent.dict d) jr mk bo parse
        = call_llm cfg name client reg sp (UserContent.str (dumps (Json.obj d))) jr mk bo parse
      ∧ (cfg.use_azure_openai = false →
          (call_llm cfg name (initClient cfg b) reg sp (UserContent.dict d) jr none bo parse).1
            = CallOutcome.ok (generic_mock name sp (dumps (Json.obj d)) jr)) := by
  intro cfg name client reg sp d jr mk bo parse b
  constructor
  · rfl
  · intro hcfg
    rw [initClient_backend_off cfg b hcfg]
    simp [call_llm, get_mock_response, serializeUserContent]

/-- Witness for C6: a concrete one-entry dictionary payload on the fallback
path yields the placeholder computed from its serialization. -/
theorem c6_dict_serialized_before_branching_witness :
    call_llm cfgBackendOff "optimizer" ClientState.noClient [] "p"
        (UserContent.dict [("a", Json.str "b")]) true none BackendOutcome.failure
        (fun _ => none)
      = call_llm cfgBackendOff "optimizer" ClientState.noClient [] "p"
          (UserContent.str (dumps (Json.obj [("a", Json.str "b")]))) true none
          BackendOutcome.failure (fun _ => none)
    ∧ (call_llm cfgBackendOff "optimizer" (initClient cfgBackendOff false) [] "p"
          (UserContent.dict [("a", Json.str "b")]) true none BackendOutcome.failure
          (fun _ => none)).1
        = CallOutcome.ok (generic_mock "optimizer" "p" (dumps (Json.obj [("a", Json.str "b")])) true) :=
  ⟨(c6_dict_serialized_before_branching cfgBackendOff "optimizer" ClientState.noClient [] "p"
      [("a", Json.str "b")] true none BackendOutcome.failure (fun _ => none) false).1,
    (c6_dict_serialized_before_branching cfgBackendOff "optimizer" ClientState.noClient [] "p"
      [("a", Json.str "b")] true none BackendOutcome.failure (fun _ => none) false).2 rfl⟩

/-- C2 concerns a component constructed while `use_azure_openai` is true but a
credential string is empty.  The claim (and the specification, and the
component's own startup log line "will use mock responses") says every
subsequent `call_llm` returns normally via the fallback path.  The code
disagrees: that `__init__` branch never assigns `self.client`, so
`call_llm` raises `AttributeError` when it evaluates
`self.client is None`.  This theorem evaluates the embedding on that path:
every call errors instead of falling back. -/
theorem c2_missing_credentials_attribute_error :
    ∀ (cfg : LLMConfig) (name : String) (b : Bool) (reg : Registry) (sp : String)
      (uc : UserContent) (jr : Bool) (mk : Option String) (bo : BackendOutcome)
      (parse : String → Option Json),
      cfg.use_azure_openai = true →
      (cfg.azure_openai_endpoint = "" ∨ cfg.azure_openai_key = "") →
      call_llm cfg name (initClient cfg b) reg sp uc jr mk bo parse
        = (CallOutcome.error attributeErrorClient, reg) := by
  intro cfg name b reg sp uc jr mk bo parse hcfg hcred
  have hc : initClient cfg b = ClientState.unset := by
    unfold initClient
    rw [hcfg]
    simp [hcred]
  rw [hc]
  rfl

/-- Witness for C2: with the backend flag on and an empty endpoint, a concrete
call raises instead of returning a fallback. -/
theorem c2_missing_credentials_attribute_error_witness :
    call_llm ⟨"", "key", true⟩ "validator" (initClient ⟨"", "key", true⟩ false) [] "sys"
        (UserContent.str "body") true none BackendOutcome.failure (fun _ => none)
      = (CallOutcome.error attributeErrorClient, []) :=
  c2_missing_credentials_attribute_error ⟨"", "key", true⟩ "validator" false [] "sys"
    (UserContent.str "body") true none BackendOutcome.failure (fun _ => none)
    rfl (Or.inl rfl)

/-- C1 concerns a backend reply whose text is not valid JSON when JSON was
required.  The claim (and the specification, and the deliberate
`raise Exception("Invalid JSON response from LLM: ...")` at base.py line
116) says the call surfaces a hard error.  The code disagrees: that raise
sits inside the outer `try` whose `except Exception` handler (whose log
line, "Error calling Azure OpenAI", was written for the backend call)
catches it and resolves the call to the fallback.  This theorem evaluates
the embedding on that path: the call returns the mock response and raises
nothing. -/
theorem c1_decode_failure_resolves_to_fallback :
    ∀ (cfg : LLMConfig) (name : String) (reg : Registry) (sp : String) (uc : UserContent)
      (mk : Option String) (content : String) (parse : String → Option Json),
      cfg.use_azure_openai = true → parse content = none →
      call_llm cfg name ClientState.connected reg sp uc true mk
          (BackendOutcome.reply content) parse
        = (CallOutcome.ok (get_mock_response name reg mk sp (serializeUserContent uc) true), reg) := by
  intro cfg name reg sp uc mk content parse hcfg hp
  simp [call_llm, hcfg, hp]

/-- Witness for C1: a concrete connected-backend call whose reply does not
parse as JSON returns the registered-fallback/placeholder value rather
than erroring. -/
theorem c1_decode_failure_resolves_to_fallback_witness :
    call_llm ⟨"e", "k", true⟩ "validator" ClientState.connected [] "sys"
        (UserContent.str "body") true none (BackendOutcome.reply "not json")
        (fun _ => none)
      = (CallOutcome.ok (get_mock_response "validator" [] none "sys" "body" true), []) :=
  c1_decode_failure_resolves_to_fallback ⟨"e", "k", true⟩ "validator" [] "sys"
    (UserContent.str "body") none "not json" (fun _ => none) rfl rfl

/-- Counterexample for C3: on the fallback path (`use_backend` false),
`suggest_fixes` called with a template-files mapping containing the
filename `"app.tf"` returns the fixed registered mock, whose keys are
`main.tf`, `variables.tf`, `outputs.tf` — the input key `"app.tf"` is not
present in the result, refuting the pass-through invariant on the
fallback path. -/
theorem c3_fallback_drops_filename :
    (suggest_fixes cfgBackendOff false validatorRegistry [("app.tf", "resource")]
        (Json.obj []) BackendOutcome.failure (fun _ => none)).1
      = CallOutcome.ok suggestFixesMock
    ∧ suggestFixesMock.objKeys = some ["main.tf", "variables.tf", "outputs.tf"]
    ∧ suggestFixesMock.getField "app.tf" = none :=
  ⟨rfl, rfl, rfl⟩

/-- C3 amended: for `customize_template` and `suggest_fixes` on the fallback
path, the returned mapping is the fixed registered mock whose keys are
exactly `main.tf`, `variables.tf` and `outputs.tf`; every input filename is
therefore present in the output precisely when it is among those three
(the unconditional pass-through invariant does not hold on that path). -/
theorem c3_fallback_keys_fixed :
    ∀ (cfg : LLMConfig) (b : Bool) (tf : TemplateFiles) (vr cz : Json)
      (bo : BackendOutcome) (parse : String → Option Json),
      cfg.use_azure_openai = false →
      (suggest_fixes cfg b validatorRegistry tf vr bo parse).1 = CallOutcome.ok suggestFixesMock
      ∧ (customize_template cfg b generatorRegistry tf cz bo parse).1
          = CallOutcome.ok customizeTemplateMock
      ∧ suggestFixesMock.objKeys = some ["main.tf", "variables.tf", "outputs.tf"]
      ∧ customizeTemplateMock.objKeys = some ["main.tf", "variables.tf", "outputs.tf"] := by
  intro cfg b tf vr cz bo parse hcfg
  refine ⟨?_, ?_, rfl, rfl⟩
  · unfold suggest_fixes
    rw [initClient_backend_off cfg b hcfg]
    rfl
  · unfold customize_template
    rw [initClient_backend_off cfg b hcfg]
    rfl

/-- Witness for C3 (amended): a concrete fallback-path call whose input key
`main.tf` is among the mock's keys and is present in the output. -/
theorem c3_fallback_keys_fixed_witness :
    (suggest_fixes cfgBackendOff false validatorRegistry [("main.tf", "m")] (Json.obj [])
        BackendOutcome.failure (fun _ => none)).1 = CallOutcome.ok suggestFixesMock
    ∧ customizeTemplateMock.objKeys = some ["main.tf", "variables.tf", "outputs.tf"] :=
  ⟨(c3_fallback_keys_fixed cfgBackendOff false [("main.tf", "m")] (Json.obj []) (Json.obj [])
      BackendOutcome.failure (fun _ => none) rfl).1,
    (c3_fallback_keys_fixed cfgBackendOff false [("main.tf", "m")] (Json.obj []) (Json.obj [])
      BackendOutcome.failure (fun _ => none) rfl).2.2.2⟩

/-- Counterexample for C7: a supplied-but-falsy optional parameter is not
merged.  `optimize_cost` with `budget_constraint = 0.0` (supplied, not
omitted) serializes a payload containing only `template_files`; likewise
`optimize_performance` and `right_size_resources` with a supplied empty
dict. -/
theorem c7_present_but_falsy_not_merged :
    (optimize_cost_payload [("main.tf", "x")] (some 0)).objKeys = some ["template_files"]
    ∧ (optimize_cost_payload [("main.tf", "x")] (some 0)).getField "budget_constraint" = none
    ∧ (optimize_performance_payload [("main.tf", "x")] (some [])).objKeys
        = some ["template_files"]
    ∧ (right_size_resources_payload [("main.tf", "x")] (some [])).objKeys
        = some ["template_files"] :=
  ⟨rfl, rfl, rfl, rfl⟩

/-- C7 amended: the optional parameter is merged into the payload alongside
`template_files` exactly when it is truthy in Python's sense (supplied and
neither `0.0` nor an empty dict); when it is absent or falsy, the payload
contains only the `template_files` key. -/
theorem c7_merge_guarded_by_truthiness :
    ∀ (tf : TemplateFiles) (bc : Option Rat) (pt ud : Option (List (String × Json))),
      (pyTruthyOptNum bc = true →
        optimize_cost_payload tf bc
          = Json.obj [("template_files", tfJson tf), ("budget_constraint", optNumJson bc)])
      ∧ (pyTruthyOptNum bc = false →
        optimize_cost_payload tf bc = Json.obj [("template_files", tfJson tf)])
      ∧ (pyTruthyOptDict pt = true →
        optimize_performance_payload tf pt
          = Json.obj [("template_files", tfJson tf), ("performance_targets", optDictJson pt)])
      ∧ (pyTruthyOptDict pt = false →
        optimize_performance_payload tf pt = Json.obj [("template_files", tfJson tf)])
      ∧ (pyTruthyOptDict ud = true →
        right_size_resources_payload tf ud
          = Json.obj [("template_files", tfJson tf), ("utilization_data", optDictJson ud)])
      ∧ (pyTruthyOptDict ud = false →
        right_size_resources_payload tf ud = Json.obj [("template_files", tfJson tf)]) := by
  intro tf bc pt ud
  refine ⟨?_, ?_, ?_, ?_, ?_, ?_⟩ <;> intro h <;>
    simp [optimize_cost_payload, optimize_performance_payload, right_size_resources_payload, h]

/-- Witness for C7 (amended): a nonzero budget is merged; an omitted
utilization dict leaves only `template_files`. -/
theorem c7_merge_guarded_by_truthiness_witness :
    pyTruthyOptNum (some 1) = true
    ∧ optimize_cost_payload [("a", "b")] (some 1)
        = Json.obj [("template_files", tfJson [("a", "b")]), ("budget_constraint", optNumJson (some 1))]
    ∧ pyTruthyOptDict (none : Option (List (String × Json))) = false
    ∧ right_size_resources_payload [("a", "b")] none
        = Json.obj [("template_files", tfJson [("a", "b")])] :=
  ⟨by decide,
    (c7_merge_guarded_by_truthiness [("a", "b")] (some 1) none none).1 (by decide),
    rfl,
    (c7_merge_guarded_by_truthiness [("a", "b")] (some 1) none none).2.2.2.2.2 rfl⟩

/-- C8: with `use_backend` false, `parse_infrastructure_requirements` on
"I need a VPC with two subnets" returns exactly the built-in sample object,
whose provider is `"aws"` and whose VPC resource holds exactly two subnet
entries. -/
theorem c8_parse_requirements_sample :
    parse_infrastructure_requirements cfgBackendOff false parserRegistry
        "I need a VPC with two subnets" BackendOutcome.failure (fun _ => none)
      = (CallOutcome.ok parseRequirementsMock, parserRegistry)
    ∧ parseRequirementsMock.getField "provider" = some (Json.str "aws")
    ∧ (((parseRequirementsMock.getField "resources").bind (fun r => r.arrGet 0)).bind
        (fun r => r.getField "type")) = some (Json.str "vpc")
    ∧ ((((parseRequirementsMock.getField "resources").bind (fun r => r.arrGet 0)).bind
        (fun r => r.getField "subnets")).bind Json.arrLen) = some 2 :=
  ⟨rfl, rfl, rfl, rfl⟩

/-- Counterexample for C10: two components with identical (empty) registries
but different component names, called on the fallback path with identical
arguments, return different results — the generic placeholder embeds the
component name. -/
theorem c10_placeholder_depends_on_component_name :
    (call_llm cfgBackendOff "parser" (initClient cfgBackendOff false) [] "" (UserContent.str "")
        true none BackendOutcome.failure (fun _ => none)).1
      ≠ (call_llm cfgBackendOff "generator" (initClient cfgBackendOff false) [] ""
          (UserContent.str "") true none BackendOutcome.failure (fun _ => none)).1 :=
  fun h => absurd (congrArg CallOutcome.messageText h) (by decide)

/-- C10 amended: on the fallback path, `call_llm` is deterministic given the
component name, the registry and the call arguments: two calls with
identical `system_prompt`, `user_content`, `json_response` and
`mock_response_key`, against components with identical registries and
identical component names, return identical results — independently of the
rest of the configuration, of the backend outcome and of the parse
function. -/
theorem c10_fallback_deterministic :
    ∀ (cfg₁ cfg₂ : LLMConfig) (b₁ b₂ : Bool) (name : String) (reg : Registry) (sp : String)
      (uc : UserContent) (jr : Bool) (mk : Option String) (bo₁ bo₂ : BackendOutcome)
      (p₁ p₂ : String → Option Json),
      cfg₁.use_azure_openai = false → cfg₂.use_azure_openai = false →
      call_llm cfg₁ name (initClient cfg₁ b₁) reg sp uc jr mk bo₁ p₁
        = call_llm cfg₂ name (initClient cfg₂ b₂) reg sp uc jr mk bo₂ p₂ := by
  intro cfg₁ cfg₂ b₁ b₂ name reg sp uc jr mk bo₁ bo₂ p₁ p₂ h₁ h₂
  rw [initClient_backend_off cfg₁ b₁ h₁, initClient_backend_off cfg₂ b₂ h₂]
  rfl

/-- Witness for C10 (amended): two concrete calls differing in endpoint
strings, construction outcome, backend outcome and parse function return
the same result once the registries and names agree. -/
theorem c10_fallback_deterministic_witness :
    call_llm cfgBackendOff "validator" (initClient cfgBackendOff true) [("k", Json.null)] "s"
        (UserContent.str "u") false (some "k") BackendOutcome.failure (fun _ => none)
      = call_llm ⟨"e", "c", false⟩ "validator" (initClient ⟨"e", "c", false⟩ false)
          [("k", Json.null)] "s" (UserContent.str "u") false (some "k")
          (BackendOutcome.reply "zzz") (fun s => some (Json.str s)) :=
  c10_fallback_deterministic cfgBackendOff ⟨"e", "c", false⟩ true false "validator"
    [("k", Json.null)] "s" (UserContent.str "u") false (some "k") BackendOutcome.failure
    (BackendOutcome.reply "zzz") (fun _ => none) (fun s => some (Json.str s)) rfl rfl
